import Mathlib

/-!
Shallow embedding of `src/splat_to_ply_converter.py` (a splat → PLY
transcoder) and proofs about it.

Modelling conventions:
* a file's raw content is a `List Byte` (`Byte := UInt8`);
* Python `float` values produced by the decoder are modelled as exact
  extended reals (`PyF`): transforms such as `math.log` are interpreted
  over `ℝ`, and the IEEE special values that can enter through the raw
  32-bit floats of the input are tracked by dedicated constructors;
* the 32-bit floats stored in the input records are decoded bit-exactly
  (`decodeF32`), with finite values represented as rationals;
* operations that can raise in Python (`struct.unpack` on a chunk of the
  wrong size, `math.log` on a non-positive argument, division by zero,
  writing a `str` to a handle opened in `'wb'` mode) are modelled in
  `Except`; the `try/except` blocks of the source become explicit
  result constructors carrying the state accumulated so far;
* `struct.pack('<f', v)` and the `f"{v}"` decimal rendering of a float
  are external library primitives, so the writer is parameterised by a
  4-byte packing function `packF32` and a rendering function `reprFloat`;
  every structural theorem holds for all instantiations.
-/

abbrev Byte := UInt8

/-- IEEE-754 binary32 value as read by `struct.unpack('<f', ...)`:
finite values are represented exactly as rationals. -/
inductive F32 where
  | finite (v : ℚ)
  | inf
  | negInf
  | nan
deriving DecidableEq

/-- Little-endian 32-bit word from four bytes. -/
def leWord (b0 b1 b2 b3 : Byte) : ℕ :=
  b0.toNat + 256 * b1.toNat + 65536 * b2.toNat + 16777216 * b3.toNat

/-- Bit-exact decoding of a little-endian IEEE-754 binary32 from four
bytes, as performed by `struct.unpack('<fff fff BBBB BBBB', ...)` for
the six leading float fields of a 32-byte splat record. -/
def decodeF32 (b0 b1 b2 b3 : Byte) : F32 :=
  let w : ℕ := leWord b0 b1 b2 b3
  let sign : ℕ := w / 2 ^ 31
  let e : ℕ := (w / 2 ^ 23) % 256
  let m : ℕ := w % 2 ^ 23
  if e = 255 then
    if m = 0 then (if sign = 1 then .negInf else .inf) else .nan
  else
    let mag : ℚ :=
      if e = 0 then ((m : ℚ) / 2 ^ 23) * (2 : ℚ) ^ (-(126 : ℤ))
      else (1 + (m : ℚ) / 2 ^ 23) * (2 : ℚ) ^ ((e : ℤ) - 127)
    .finite (if sign = 1 then -mag else mag)

/-- A Python `float` value as held in a decoded record: either an exact
real number, or one of the IEEE special values. -/
inductive PyF where
  | finite (v : ℝ)
  | inf
  | negInf
  | nan

/-- Widening of a raw 32-bit float to the Python float it becomes after
`struct.unpack` (float32 → float64 is exact). -/
def pyOfF32 : F32 → PyF
  | .finite q => .finite (q : ℝ)
  | .inf => .inf
  | .negInf => .negInf
  | .nan => .nan

/-- The Python comparison `s > 0` on a float `s`: false for `nan` and
`-inf`, true for `+inf`. -/
def pyGtZero : F32 → Bool
  | .finite q => decide (0 < q)
  | .inf => true
  | .negInf => false
  | .nan => false

/-- `math.log` with its failure behaviour: `ValueError` on a
non-positive finite argument and on `-inf`; `log(+inf) = +inf`;
`log(nan) = nan`. -/
noncomputable def pyLogE : F32 → Except Unit PyF
  | .finite q => if q ≤ 0 then .error () else .ok (.finite (Real.log (q : ℝ)))
  | .inf => .ok .inf
  | .negInf => .error ()
  | .nan => .ok .nan

/-- Source line 30–32: `math.log(s) if s > 0 else -1e-6`, with the
failure points of `math.log` kept explicit (they are guarded away). -/
noncomputable def scaleTransformE (s : F32) : Except Unit PyF :=
  if pyGtZero s then pyLogE s else .ok (.finite (-(1 / 1000000)))

/-- Total version of the scale transform of source lines 30–32:
`math.log(s) if s > 0 else -1e-6`. The guard makes the `math.log`
domain error unreachable. -/
noncomputable def scaleTransform (s : F32) : PyF :=
  if pyGtZero s then
    match s with
    | .finite q => .finite (Real.log (q : ℝ))
    | .inf => .inf
    | .negInf => .finite 0
    | .nan => .nan
  else .finite (-(1 / 1000000))

/-- Source lines 35–37: `(c / 255.0 - 0.5) * 2.0 * 1.772196` on a raw
color byte `c`. -/
noncomputable def colorTransform (c : Byte) : PyF :=
  .finite (((c.toNat : ℝ) / 255 - 1 / 2) * 2 * (1772196 / 1000000))

/-- Source line 41: `max(0.0001, min(0.9999, p))` on `p = o / 255`,
computed over exact rationals. -/
def pyClamp (p : ℚ) : ℚ :=
  max (1 / 10000) (min (9999 / 10000) p)

/-- Source lines 40–42 with the failure points explicit: division by
`1 - p` (ZeroDivisionError if zero) followed by `math.log` (ValueError
if the quotient is not positive). Both are made unreachable by the
clamp. -/
noncomputable def opacityTransformE (o : Byte) : Except Unit PyF :=
  let p : ℚ := pyClamp ((o.toNat : ℚ) / 255)
  if 1 - p = 0 then .error ()
  else if p / (1 - p) ≤ 0 then .error ()
  else .ok (.finite (Real.log ((p : ℝ) / (1 - (p : ℝ)))))

/-- Total version of the opacity transform of source lines 39–42:
raw byte → `o/255` → clamp to `[0.0001, 0.9999]` → logit. -/
noncomputable def opacityTransform (o : Byte) : PyF :=
  let p : ℚ := pyClamp ((o.toNat : ℚ) / 255)
  .finite (Real.log ((p : ℝ) / (1 - (p : ℝ))))

/-- Source lines 45–48: `(q / 128.0) - 1.0` on a raw quaternion byte. -/
noncomputable def rotTransform (q : Byte) : PyF :=
  .finite ((q.toNat : ℝ) / 128 - 1)

/-- The in-memory Point Record built on source lines 50–65: 14 named
float fields. -/
structure Splat where
  x : PyF
  y : PyF
  z : PyF
  opacity : PyF
  rot_0 : PyF
  rot_1 : PyF
  rot_2 : PyF
  rot_3 : PyF
  f_dc_0 : PyF
  f_dc_1 : PyF
  f_dc_2 : PyF
  scale_0 : PyF
  scale_1 : PyF
  scale_2 : PyF

/-- The raw 32-bit float starting at byte offset `off` of a chunk. -/
def f32At (c : List Byte) (off : ℕ) : F32 :=
  decodeF32 (c.getD off 0) (c.getD (off + 1) 0) (c.getD (off + 2) 0)
    (c.getD (off + 3) 0)

/-- Decoding of one full 32-byte record (source lines 25–65), total
version: positions at offsets 0/4/8, raw scales at 12/16/20, color
bytes at 24–26, opacity byte at 27, quaternion bytes at 28–31. -/
noncomputable def decodeChunk (c : List Byte) : Splat :=
  { x := pyOfF32 (f32At c 0)
    y := pyOfF32 (f32At c 4)
    z := pyOfF32 (f32At c 8)
    opacity := opacityTransform (c.getD 27 0)
    rot_0 := rotTransform (c.getD 28 0)
    rot_1 := rotTransform (c.getD 29 0)
    rot_2 := rotTransform (c.getD 30 0)
    rot_3 := rotTransform (c.getD 31 0)
    f_dc_0 := colorTransform (c.getD 24 0)
    f_dc_1 := colorTransform (c.getD 25 0)
    f_dc_2 := colorTransform (c.getD 26 0)
    scale_0 := scaleTransform (f32At c 12)
    scale_1 := scaleTransform (f32At c 16)
    scale_2 := scaleTransform (f32At c 20) }

/-- Decoding of one chunk with every Python failure point explicit:
`struct.unpack` raises `struct.error` unless the chunk is exactly 32
bytes; the scale and opacity transforms can in principle raise (see
`scaleTransformE`, `opacityTransformE`). -/
noncomputable def decodeChunkE (c : List Byte) : Except Unit Splat :=
  if c.length = 32 then do
    let s0 ← scaleTransformE (f32At c 12)
    let s1 ← scaleTransformE (f32At c 16)
    let s2 ← scaleTransformE (f32At c 20)
    let op ← opacityTransformE (c.getD 27 0)
    .ok { x := pyOfF32 (f32At c 0)
          y := pyOfF32 (f32At c 4)
          z := pyOfF32 (f32At c 8)
          opacity := op
          rot_0 := rotTransform (c.getD 28 0)
          rot_1 := rotTransform (c.getD 29 0)
          rot_2 := rotTransform (c.getD 30 0)
          rot_3 := rotTransform (c.getD 31 0)
          f_dc_0 := colorTransform (c.getD 24 0)
          f_dc_1 := colorTransform (c.getD 25 0)
          f_dc_2 := colorTransform (c.getD 26 0)
          scale_0 := s0
          scale_1 := s1
          scale_2 := s2 }
  else .error ()

/-- The read loop of `read_splat_file` (source lines 19–66): take 32
bytes at a time, stop without error on a short read, stop with the
caught exception (keeping the records accumulated so far) if a decode
step fails. The second component records whether the catch-all
`except` branch was reached. -/
noncomputable def readLoop (bs : List Byte) : List Splat × Option Unit :=
  if h : bs.length < 32 then ([], none)
  else
    match decodeChunkE (List.take 32 bs) with
    | .error _ => ([], some ())
    | .ok s =>
      let r := readLoop (List.drop 32 bs)
      (s :: r.1, r.2)
termination_by bs.length
decreasing_by simp only [List.length_drop]; omega

/-- Diagnostics printed by the program. -/
inductive Msg where
  | fileNotFoundError
  | unexpectedError
  | noSplatsFound
  | wroteSuccess (n : ℕ)
  | writeError
deriving DecidableEq

/-- `read_splat_file` (source lines 5–73). The input is `none` when the
path does not exist (Python raises `FileNotFoundError` at `open`);
otherwise it is the file's raw bytes. Returns the decoded collection
together with the diagnostics printed. -/
noncomputable def read_splat_file (file : Option (List Byte)) :
    List Splat × List Msg :=
  match file with
  | none => ([], [.fileNotFoundError])
  | some bs =>
    match readLoop bs with
    | (ss, none) => (ss, [])
    | (ss, some _) => (ss, [.unexpectedError])

/-- An open file handle: `'w'` gives a text handle, `'wb'` a binary
handle; the content written so far is tracked per kind. -/
inductive HMode where
  | text
  | wb
deriving DecidableEq

structure Handle where
  mode : HMode
  chars : String
  bytes : List Byte
deriving DecidableEq

/-- `f.write(s)` with a `str` argument: appends on a text handle,
raises `TypeError` on a binary handle (the partial handle is carried
in the error). -/
def writeStr (h : Handle) (s : String) : Except Handle Handle :=
  match h.mode with
  | .text => .ok { h with chars := h.chars ++ s }
  | .wb => .error h

/-- `f.write(b)` with a `bytes` argument: appends on a binary handle,
raises `TypeError` on a text handle. -/
def writeBytes (h : Handle) (b : List Byte) : Except Handle Handle :=
  match h.mode with
  | .wb => .ok { h with bytes := h.bytes ++ b }
  | .text => .error h

/-- A `for` loop of writes, stopping at the first raised exception. -/
def writeList {α : Type} (w : Handle → α → Except Handle Handle)
    (h : Handle) : List α → Except Handle Handle
  | [] => .ok h
  | x :: xs =>
    match w h x with
    | .error e => .error e
    | .ok h2 => writeList w h2 xs

/-- `line.encode('utf-8')` (source line 107); the header lines are
pure ASCII. -/
def encodeUtf8 (s : String) : List Byte := s.toUTF8.toList

/-- The `header_lines` list of source lines 85–104, for a given format
selector and record count. -/
def header_lines (format : String) (num_splats : ℕ) : List String :=
  [ "ply\n",
    if format == "binary" then ("format binary_little_endian 1.0\n")
    else ("format ascii 1.0\n"),
    "element vertex " ++ toString num_splats ++ "\n",
    "property float x\n",
    "property float y\n",
    "property float z\n",
    "property float opacity\n",
    "property float rot_0\n",
    "property float rot_1\n",
    "property float rot_2\n",
    "property float rot_3\n",
    "property float f_dc_0\n",
    "property float f_dc_1\n",
    "property float f_dc_2\n",
    "property float scale_0\n",
    "property float scale_1\n",
    "property float scale_2\n",
    "end_header\n" ]

/-- The 14 field values of a record in the order they are packed
(source lines 109–115) and rendered (source lines 121–126); this is
also the order of the header's property lines. -/
def packOrder (s : Splat) : List PyF :=
  [s.x, s.y, s.z, s.opacity, s.rot_0, s.rot_1, s.rot_2, s.rot_3,
   s.f_dc_0, s.f_dc_1, s.f_dc_2, s.scale_0, s.scale_1, s.scale_2]

/-- `struct.pack('<3f1f4f3f3f', ...)` for one record, parameterised by
the 4-byte little-endian float32 encoding `packF32` of one value. -/
def packRecord (packF32 : PyF → List Byte) (s : Splat) : List Byte :=
  (packOrder s).flatMap packF32

/-- The whole packed binary body, records in collection order. -/
def binaryBody (packF32 : PyF → List Byte) (splats : List Splat) :
    List Byte :=
  splats.flatMap (packRecord packF32)

/-- One ascii body line (source lines 121–126): the 14 values in pack
order, space-separated, newline-terminated, each rendered by the
f-string float formatting `reprFloat`. -/
def asciiLine (reprFloat : PyF → String) (s : Splat) : String :=
  String.intercalate (" ") ((packOrder s).map reprFloat) ++ "\n"

/-- Result of a call to `write_ply_file`: `noWrite` means it returned
before opening the output path; `completed` and `aborted` carry the
final handle (the content the output file is left with). -/
inductive WriteResult where
  | noWrite
  | completed (file : Handle)
  | aborted (file : Handle)
deriving DecidableEq

/-- `write_ply_file` (source lines 76–130), parameterised by the
float32 packing and float rendering primitives. Mirrors the source:
empty-collection early return (lines 77–79); open with mode `'w'` iff
the selector is exactly `"ascii"` (line 84); header written encoded iff
the selector is exactly `"binary"` (lines 105–107 vs 118–119); then the
per-record body writes; any exception is caught (lines 129–130). -/
def write_ply_file (packF32 : PyF → List Byte) (reprFloat : PyF → String)
    (splats_data : List Splat) (format : String) : WriteResult × List Msg :=
  if splats_data.isEmpty then (.noWrite, [.noSplatsFound])
  else
    let num_splats := splats_data.length
    let h0 : Handle :=
      { mode := if format == "ascii" then .text else .wb,
        chars := "", bytes := [] }
    let hdr := header_lines format num_splats
    let res : Except Handle Handle :=
      if format == "binary" then
        match writeList writeBytes h0 (hdr.map encodeUtf8) with
        | .error e => .error e
        | .ok h1 =>
          writeList writeBytes h1 (splats_data.map (packRecord packF32))
      else
        match writeList writeStr h0 hdr with
        | .error e => .error e
        | .ok h1 =>
          writeList writeStr h1 (splats_data.map (asciiLine reprFloat))
    match res with
    | .ok hf => (.completed hf, [.wroteSuccess num_splats])
    | .error hf => (.aborted hf, [.writeError])

/-- Effect of a `write_ply_file` call on the output path: `noWrite`
returned before `open`, so a pre-existing file is untouched; otherwise
`open(..., 'w'/'wb')` truncated the path and the final handle content
is what remains on disk. -/
def fileAfter (r : WriteResult) (prior : Option Handle) : Option Handle :=
  match r with
  | .noWrite => prior
  | .completed hf => some hf
  | .aborted hf => some hf

/-! ### Helper lemmas about the decoder -/

lemma scaleTransformE_eq (s : F32) :
    scaleTransformE s = .ok (scaleTransform s) := by
  cases s with
  | finite q =>
    by_cases hq : 0 < q
    · have : ¬ q ≤ 0 := not_le.mpr hq
      simp [scaleTransformE, scaleTransform, pyGtZero, pyLogE, hq, this]
    · simp [scaleTransformE, scaleTransform, pyGtZero, pyLogE, hq]
  | inf => simp [scaleTransformE, scaleTransform, pyGtZero, pyLogE]
  | negInf => simp [scaleTransformE, scaleTransform, pyGtZero, pyLogE]
  | nan => simp [scaleTransformE, scaleTransform, pyGtZero, pyLogE]

lemma pyClamp_le (p : ℚ) : pyClamp p ≤ 9999 / 10000 := by
  unfold pyClamp
  refine max_le (by norm_num) (min_le_left _ _)

lemma le_pyClamp (p : ℚ) : 1 / 10000 ≤ pyClamp p := le_max_left _ _

lemma opacityTransformE_eq (o : Byte) :
    opacityTransformE o = .ok (opacityTransform o) := by
  have h1 : pyClamp ((o.toNat : ℚ) / 255) ≤ 9999 / 10000 := pyClamp_le _
  have h2 : 1 / 10000 ≤ pyClamp ((o.toNat : ℚ) / 255) := le_pyClamp _
  have hden : (0 : ℚ) < 1 - pyClamp ((o.toNat : ℚ) / 255) := by linarith
  have hpos : 0 < pyClamp ((o.toNat : ℚ) / 255) / (1 - pyClamp ((o.toNat : ℚ) / 255)) :=
    div_pos (by linarith) hden
  simp only [opacityTransformE, opacityTransform]
  rw [if_neg (by linarith), if_neg (not_le.mpr hpos)]

lemma decodeChunkE_eq (c : List Byte) (h : c.length = 32) :
    decodeChunkE c = .ok (decodeChunk c) := by
  simp [decodeChunkE, h, scaleTransformE_eq, opacityTransformE_eq, decodeChunk,
    Bind.bind, Except.bind]

/-! ### Helper lemmas about the read loop -/

lemma readLoop_short (bs : List Byte) (h : bs.length < 32) :
    readLoop bs = ([], none) := by
  rw [readLoop]
  simp [h]

lemma readLoop_step (bs : List Byte) (h : ¬ bs.length < 32) :
    readLoop bs =
      (decodeChunk (List.take 32 bs) :: (readLoop (List.drop 32 bs)).1,
       (readLoop (List.drop 32 bs)).2) := by
  have htake : (List.take 32 bs).length = 32 := by
    simp [List.length_take]
    omega
  rw [readLoop]
  simp [h, decodeChunkE_eq _ htake]

lemma readLoop_spec (k r : ℕ) (bs : List Byte)
    (hlen : bs.length = 32 * k + r) (hr : r < 32) :
    readLoop bs =
      ((List.range k).map
        (fun i => decodeChunk (List.take 32 (List.drop (32 * i) bs))), none) := by
  induction k generalizing bs with
  | zero =>
    have : bs.length < 32 := by omega
    simp [readLoop_short bs this]
  | succ k ih =>
    have hge : ¬ bs.length < 32 := by omega
    have hdrop : (List.drop 32 bs).length = 32 * k + r := by
      rw [List.length_drop]
      omega
    rw [readLoop_step bs hge, ih (List.drop 32 bs) hdrop]
    have hfun : ∀ i : ℕ,
        decodeChunk (List.take 32 (List.drop (32 * i) (List.drop 32 bs))) =
          decodeChunk (List.take 32 (List.drop (32 * Nat.succ i) bs)) := by
      intro i
      rw [List.drop_drop]
      have h32 : 32 + 32 * i = 32 * Nat.succ i := by omega
      rw [h32]
    have hmap :
        (List.range (Nat.succ k)).map
            (fun i => decodeChunk (List.take 32 (List.drop (32 * i) bs))) =
          decodeChunk (List.take 32 bs) ::
            (List.range k).map
              (fun i =>
                decodeChunk (List.take 32 (List.drop (32 * i) (List.drop 32 bs)))) := by
      rw [List.range_succ_eq_map, List.map_cons, List.map_map]
      refine congrArg₂ List.cons (by simp) ?_
      refine List.map_congr_left (fun i _ => ?_)
      simp only [Function.comp_apply]
      exact (hfun i).symm
    rw [hmap]

lemma readLoop_no_error (bs : List Byte) : (readLoop bs).2 = none := by
  have h := readLoop_spec (bs.length / 32) (bs.length % 32) bs
    (by omega) (Nat.mod_lt _ (by norm_num))
  rw [h]

lemma readLoop_length (bs : List Byte) :
    (readLoop bs).1.length = bs.length / 32 := by
  have h := readLoop_spec (bs.length / 32) (bs.length % 32) bs
    (by omega) (Nat.mod_lt _ (by norm_num))
  rw [h]
  simp

/-! ### Helper lemmas about the writer -/

/-- The three format selector strings used in the statements below. -/
def fmtAscii : String := "ascii"

def fmtBinary : String := "binary"

/-- An arbitrary selector that is neither of the two documented ones. -/
def fmtOther : String := "Binary"

/-- Concatenation of a list of strings (what consecutive `f.write`
calls on a text handle accumulate). -/
def joinLines (ls : List String) : String :=
  ls.foldr (fun s r => s ++ r) ""

lemma joinLines_cons (x : String) (xs : List String) :
    joinLines (x :: xs) = x ++ joinLines xs := rfl

lemma writeList_writeBytes (ls : List (List Byte)) (h : Handle)
    (hm : h.mode = .wb) :
    writeList writeBytes h ls = .ok { h with bytes := h.bytes ++ ls.flatten } := by
  induction ls generalizing h with
  | nil => simp [writeList]
  | cons x xs ih =>
    cases h with
    | mk mode chars bytes =>
      cases hm
      simp [writeList, writeBytes, ih]

lemma writeList_writeStr_text (ls : List String) (h : Handle)
    (hm : h.mode = .text) :
    writeList writeStr h ls = .ok { h with chars := h.chars ++ joinLines ls } := by
  induction ls generalizing h with
  | nil => simp [writeList, joinLines]
  | cons x xs ih =>
    cases h with
    | mk mode chars bytes =>
      cases hm
      simp [writeList, writeStr, ih, joinLines_cons, String.append_assoc]

lemma writeList_writeStr_wb (x : String) (xs : List String) (h : Handle)
    (hm : h.mode = .wb) :
    writeList writeStr h (x :: xs) = .error h := by
  cases h with
  | mk mode chars bytes =>
    cases hm
    simp [writeList, writeStr]

lemma write_ply_file_binary (packF32 : PyF → List Byte)
    (reprFloat : PyF → String) (splats : List Splat) (hne : splats ≠ []) :
    write_ply_file packF32 reprFloat splats fmtBinary =
      (.completed
        { mode := .wb, chars := "",
          bytes := ((header_lines fmtBinary splats.length).map encodeUtf8).flatten
            ++ binaryBody packF32 splats },
       [.wroteSuccess splats.length]) := by
  simp [write_ply_file, hne, fmtBinary, writeList_writeBytes, binaryBody,
    List.flatMap_def]

lemma write_ply_file_ascii (packF32 : PyF → List Byte)
    (reprFloat : PyF → String) (splats : List Splat) (hne : splats ≠ []) :
    write_ply_file packF32 reprFloat splats fmtAscii =
      (.completed
        { mode := .text,
          chars := joinLines (header_lines fmtAscii splats.length)
            ++ joinLines (splats.map (asciiLine reprFloat)),
          bytes := [] },
       [.wroteSuccess splats.length]) := by
  simp [write_ply_file, hne, fmtAscii, writeList_writeStr_text,
    String.append_assoc]

lemma write_ply_file_other (packF32 : PyF → List Byte)
    (reprFloat : PyF → String) (splats : List Splat) (format : String)
    (hne : splats ≠ []) (ha : format ≠ fmtAscii) (hb : format ≠ fmtBinary) :
    write_ply_file packF32 reprFloat splats format =
      (.aborted { mode := .wb, chars := "", bytes := [] }, [.writeError]) := by
  have ha' : (format == "ascii") = false := by
    simpa [fmtAscii] using ha
  have hb' : (format == "binary") = false := by
    simpa [fmtBinary] using hb
  simp [write_ply_file, hne, ha', hb', header_lines, writeList, writeStr]

/-! ### Concrete instances used by witnesses and counterexamples -/

/-- A concrete one-record collection (field values are irrelevant to the
structural claims). -/
def splatNaN : Splat :=
  { x := .nan, y := .nan, z := .nan, opacity := .nan,
    rot_0 := .nan, rot_1 := .nan, rot_2 := .nan, rot_3 := .nan,
    f_dc_0 := .nan, f_dc_1 := .nan, f_dc_2 := .nan,
    scale_0 := .nan, scale_1 := .nan, scale_2 := .nan }

/-- A concrete float32 packing primitive (any 4-byte encoder). -/
def packZero : PyF → List Byte := fun _ => [0, 0, 0, 0]

/-- A concrete float rendering primitive. -/
def reprZero : PyF → String := fun _ => "0.0"

/-! ### Claim theorems -/

/-- C1, counterexample: with the selector `"Binary"` (not `"ascii"`, so
per the claim it should behave exactly like `"binary"`), `write_ply_file`
does not behave as with `"binary"`: the file-mode test compares the
selector with `"ascii"` while the header/body test compares it with
`"binary"`, so the call opens a binary handle, takes the ascii writing
path, and its first header write fails. -/
theorem C1_counterexample :
    write_ply_file packZero reprZero [splatNaN] fmtOther ≠
      write_ply_file packZero reprZero [splatNaN] fmtBinary := by
  rw [write_ply_file_other packZero reprZero [splatNaN] fmtOther (by simp)
      (by decide) (by decide),
    write_ply_file_binary packZero reprZero [splatNaN] (by simp)]
  simp

/-- C1, amended: for every non-empty Point Collection and every selector
other than both `"ascii"` and `"binary"`, `write_ply_file` opens
(creates/truncates) the output in binary mode but selects the ascii
header line and the ascii body writer, whose first write of a `str` to
the binary handle raises; the exception is caught and reported and the
output file is left empty. Only the exact selector `"binary"` produces
the binary-little-endian header and packed body. -/
theorem C1_amended_third_mode (packF32 : PyF → List Byte)
    (reprFloat : PyF → String) (splats : List Splat) (format : String)
    (hne : splats ≠ []) (ha : format ≠ fmtAscii) (hb : format ≠ fmtBinary) :
    write_ply_file packF32 reprFloat splats format =
      (.aborted { mode := .wb, chars := "", bytes := [] }, [.writeError]) ∧
    write_ply_file packF32 reprFloat splats fmtBinary =
      (.completed
        { mode := .wb, chars := "",
          bytes := ((header_lines fmtBinary splats.length).map encodeUtf8).flatten
            ++ binaryBody packF32 splats },
       [.wroteSuccess splats.length]) :=
  ⟨write_ply_file_other packF32 reprFloat splats format hne ha hb,
   write_ply_file_binary packF32 reprFloat splats hne⟩

/-- C1, witness: the amended statement evaluated at the selector
`"Binary"` on a concrete one-record collection. -/
theorem C1_witness :
    write_ply_file packZero reprZero [splatNaN] fmtOther =
      (.aborted { mode := .wb, chars := "", bytes := [] }, [.writeError]) ∧
    write_ply_file packZero reprZero [splatNaN] fmtBinary =
      (.completed
        { mode := .wb, chars := "",
          bytes := ((header_lines fmtBinary 1).map encodeUtf8).flatten
            ++ binaryBody packZero [splatNaN] },
       [.wroteSuccess 1]) :=
  C1_amended_third_mode packZero reprZero [splatNaN] fmtOther (by simp)
    (by decide) (by decide)

/-- C5: calling `write_ply_file` with an empty Point Collection reports
the no-splats diagnostic and returns before the output path is opened,
so for every prior state of the output path and every format selector
the output file is neither created nor truncated. -/
theorem C5_empty_input_short_circuit (packF32 : PyF → List Byte)
    (reprFloat : PyF → String) (format : String) (prior : Option Handle) :
    write_ply_file packF32 reprFloat [] format = (.noWrite, [.noSplatsFound]) ∧
    fileAfter (write_ply_file packF32 reprFloat [] format).1 prior = prior := by
  refine ⟨by simp [write_ply_file], ?_⟩
  simp [write_ply_file, fileAfter]

/-- C6: when the input path does not exist, `read_splat_file` reports the
file-not-found condition and returns an empty collection instead of
raising, and the subsequent encode stage is a no-op that reports the
no-splats diagnostic. -/
theorem C6_missing_input_empty_result (packF32 : PyF → List Byte)
    (reprFloat : PyF → String) (format : String) :
    read_splat_file none = ([], [Msg.fileNotFoundError]) ∧
    write_ply_file packF32 reprFloat (read_splat_file none).1 format =
      (.noWrite, [.noSplatsFound]) := by
  refine ⟨rfl, ?_⟩
  simp [read_splat_file, write_ply_file]

/-- C3: for an input of `k` complete 32-byte records plus `r < 32`
trailing bytes, `read_splat_file` returns exactly `k` Point Records, the
i-th being the decoding of the i-th 32-byte chunk (file order), the
trailing bytes are dropped without any reported error, and the encoder
emits exactly that list: the packed body is the concatenation of the
per-record packings of those `k` records in the same order. -/
theorem C3_record_count_and_order (k r : ℕ) (bs : List Byte)
    (hlen : bs.length = 32 * k + r) (hr : r < 32) :
    (read_splat_file (some bs)).2 = [] ∧
    (read_splat_file (some bs)).1 =
      (List.range k).map
        (fun i => decodeChunk (List.take 32 (List.drop (32 * i) bs))) ∧
    (read_splat_file (some bs)).1.length = k ∧
    ∀ packF32 : PyF → List Byte,
      binaryBody packF32 (read_splat_file (some bs)).1 =
        ((List.range k).map
          (fun i => decodeChunk (List.take 32 (List.drop (32 * i) bs)))).flatMap
          (packRecord packF32) := by
  have h := readLoop_spec k r bs hlen hr
  have hread : read_splat_file (some bs) =
      ((List.range k).map
        (fun i => decodeChunk (List.take 32 (List.drop (32 * i) bs))), []) := by
    simp [read_splat_file, h]
  refine ⟨by rw [hread], by rw [hread], by rw [hread]; simp,
    fun packF32 => by rw [hread]; rfl⟩

/-- C3, witness: a 33-byte input (one complete record, one trailing
byte) decodes to exactly one record with no reported error. -/
theorem C3_witness :
    (read_splat_file (some (List.replicate 33 (0 : Byte)))).2 = [] ∧
    (read_splat_file (some (List.replicate 33 (0 : Byte)))).1.length = 1 :=
  ⟨(C3_record_count_and_order 1 1 (List.replicate 33 (0 : Byte))
      (by simp) (by norm_num)).1,
   (C3_record_count_and_order 1 1 (List.replicate 33 (0 : Byte))
      (by simp) (by norm_num)).2.2.1⟩

/-- The 14 PLY property names, in header order. -/
def plyPropertyNames : List String :=
  [ "x", "y", "z", "opacity", "rot_0", "rot_1", "rot_2", "rot_3",
    "f_dc_0", "f_dc_1", "f_dc_2", "scale_0", "scale_1", "scale_2" ]

lemma packRecord_length (packF32 : PyF → List Byte)
    (hp : ∀ v, (packF32 v).length = 4) (s : Splat) :
    (packRecord packF32 s).length = 56 := by
  simp [packRecord, packOrder, List.length_flatMap, Function.comp, hp]

lemma binaryBody_length (packF32 : PyF → List Byte)
    (hp : ∀ v, (packF32 v).length = 4) (splats : List Splat) :
    (binaryBody packF32 splats).length = 56 * splats.length := by
  induction splats with
  | nil => simp [binaryBody]
  | cons s ss ih =>
    have hcons : binaryBody packF32 (s :: ss) =
        packRecord packF32 s ++ binaryBody packF32 ss := by
      simp [binaryBody, List.flatMap_cons]
    rw [hcons]
    simp only [List.length_append, packRecord_length packF32 hp, ih,
      List.length_cons]
    ring

/-- C4: for an `N`-record collection the header's element line states
exactly `element vertex N`, the 14 `property float` lines follow in the
fixed order matching the Point Record field order consumed by the
packer, and the binary-mode body is exactly `N * 56` bytes (14 packed
4-byte floats per record, no separators). -/
theorem C4_header_and_binary_body (splats : List Splat)
    (packF32 : PyF → List Byte) (reprFloat : PyF → String)
    (hp : ∀ v, (packF32 v).length = 4) (hne : splats ≠ []) :
    header_lines fmtBinary splats.length =
      [ ("ply\n"), ("format binary_little_endian 1.0\n"),
        "element vertex " ++ toString splats.length ++ "\n" ] ++
      plyPropertyNames.map (fun p => "property float " ++ p ++ "\n") ++
      [("end_header\n")] ∧
    (∀ s : Splat, packOrder s =
      [s.x, s.y, s.z, s.opacity, s.rot_0, s.rot_1, s.rot_2, s.rot_3,
       s.f_dc_0, s.f_dc_1, s.f_dc_2, s.scale_0, s.scale_1, s.scale_2]) ∧
    (binaryBody packF32 splats).length = 56 * splats.length ∧
    write_ply_file packF32 reprFloat splats fmtBinary =
      (.completed
        { mode := .wb, chars := "",
          bytes := ((header_lines fmtBinary splats.length).map encodeUtf8).flatten
            ++ binaryBody packF32 splats },
       [.wroteSuccess splats.length]) := by
  refine ⟨?_, fun s => rfl, binaryBody_length packF32 hp splats,
    write_ply_file_binary packF32 reprFloat splats hne⟩
  simp [header_lines, fmtBinary, plyPropertyNames]

/-- C4, witness: the body-length and writer result evaluated on a
one-record collection with a concrete 4-byte packer. -/
theorem C4_witness :
    (binaryBody packZero [splatNaN]).length = 56 * [splatNaN].length ∧
    write_ply_file packZero reprZero [splatNaN] fmtBinary =
      (.completed
        { mode := .wb, chars := "",
          bytes := ((header_lines fmtBinary [splatNaN].length).map encodeUtf8).flatten
            ++ binaryBody packZero [splatNaN] },
       [.wroteSuccess [splatNaN].length]) :=
  ⟨(C4_header_and_binary_body [splatNaN] packZero reprZero (fun v => rfl)
      (by simp)).2.2.1,
   (C4_header_and_binary_body [splatNaN] packZero reprZero (fun v => rfl)
      (by simp)).2.2.2⟩

/-- C9: the decoder is total over any successfully read byte sequence:
the catch-all exception branch of `read_splat_file` is never taken
(`readLoop` reports no error and no diagnostic is printed), unpacking is
applied only to chunks of exactly 32 bytes and then succeeds, the
Python test `s > 0` is false for NaN so non-positive and NaN raw scales
take the sentinel branch rather than calling `math.log`, and the logit
denominator `1 - p` is nonzero (indeed positive, as is `p / (1 - p)`)
because `p` is clamped into `[0.0001, 0.9999]`. -/
theorem C9_decoder_never_raises (bs : List Byte) :
    (readLoop bs).2 = none ∧
    (read_splat_file (some bs)).2 = [] ∧
    (∀ c : List Byte, c.length = 32 → decodeChunkE c = .ok (decodeChunk c)) ∧
    pyGtZero .nan = false ∧
    scaleTransformE .nan = .ok (.finite (-(1 / 1000000))) ∧
    (∀ q : ℚ, 1 - pyClamp q ≠ 0 ∧ 0 < pyClamp q / (1 - pyClamp q)) := by
  have hclamp : ∀ q : ℚ, 1 - pyClamp q ≠ 0 ∧ 0 < pyClamp q / (1 - pyClamp q) := by
    intro q
    have h1 := pyClamp_le q
    have h2 := le_pyClamp q
    have hden : (0 : ℚ) < 1 - pyClamp q := by linarith
    exact ⟨ne_of_gt hden, div_pos (by linarith) hden⟩
  refine ⟨readLoop_no_error bs, ?_, fun c hc => decodeChunkE_eq c hc, rfl,
    by simp [scaleTransformE, pyGtZero], hclamp⟩
  rcases hre : readLoop bs with ⟨ss, e⟩
  have he : e = none := by
    have := readLoop_no_error bs
    rw [hre] at this
    exact this
  subst he
  simp [read_splat_file, hre]

/-- C9, witness: evaluated on a concrete all-zero 32-byte chunk. -/
theorem C9_witness :
    (readLoop (List.replicate 32 (0 : Byte))).2 = none ∧
    decodeChunkE (List.replicate 32 (0 : Byte)) =
      .ok (decodeChunk (List.replicate 32 (0 : Byte))) :=
  ⟨(C9_decoder_never_raises (List.replicate 32 (0 : Byte))).1,
   (C9_decoder_never_raises (List.replicate 32 (0 : Byte))).2.2.1 _ (by simp)⟩

/-- C7: for each of the three raw scale floats `s` of every decoded
record, if `s > 0` the decoded scale field is the natural logarithm
`ln s`, and otherwise it is the sentinel `-0.000001`; the three scale
fields of a decoded record are exactly this transform of the raw
scales at offsets 12, 16 and 20. -/
theorem C7_scale_log_or_sentinel :
    (∀ q : ℚ, 0 < q → scaleTransform (.finite q) = .finite (Real.log (q : ℝ))) ∧
    (∀ q : ℚ, ¬ 0 < q → scaleTransform (.finite q) = .finite (-(1 / 1000000))) ∧
    (∀ c : List Byte,
      (decodeChunk c).scale_0 = scaleTransform (f32At c 12) ∧
      (decodeChunk c).scale_1 = scaleTransform (f32At c 16) ∧
      (decodeChunk c).scale_2 = scaleTransform (f32At c 20)) := by
  refine ⟨fun q hq => ?_, fun q hq => ?_, fun c => ⟨rfl, rfl, rfl⟩⟩
  · simp [scaleTransform, pyGtZero, hq]
  · simp [scaleTransform, pyGtZero, hq]

/-- C7, witness: a positive raw scale decodes to its natural log, a
negative one to the sentinel. -/
theorem C7_witness :
    scaleTransform (.finite 1) = .finite (Real.log ((1 : ℚ) : ℝ)) ∧
    scaleTransform (.finite (-1)) = .finite (-(1 / 1000000)) :=
  ⟨C7_scale_log_or_sentinel.1 1 (by norm_num),
   C7_scale_log_or_sentinel.2.1 (-1) (by norm_num)⟩

/-- C8: for every raw opacity byte `o`, the decoded opacity is
`ln (p / (1 - p))` with `p` the clamp of `o / 255` into
`[0.0001, 0.9999]`; byte `0` gives the logit of `0.0001` and byte `255`
the logit of `0.9999` — in both cases a finite real, not `±∞`. -/
theorem C8_opacity_logit (o : Byte) :
    opacityTransform o =
      .finite (Real.log ((pyClamp ((o.toNat : ℚ) / 255) : ℝ) /
        (1 - (pyClamp ((o.toNat : ℚ) / 255) : ℝ)))) ∧
    opacityTransform 0 =
      .finite (Real.log (((1 : ℝ) / 10000) / (1 - (1 : ℝ) / 10000))) ∧
    opacityTransform 255 =
      .finite (Real.log (((9999 : ℝ) / 10000) / (1 - (9999 : ℝ) / 10000))) ∧
    (∀ c : List Byte, (decodeChunk c).opacity = opacityTransform (c.getD 27 0)) := by
  have hb0 : (((0 : Byte).toNat : ℚ)) = 0 := by decide
  have hb255 : (((255 : Byte).toNat : ℚ)) = 255 := by decide
  have hp0 : pyClamp (((0 : Byte).toNat : ℚ) / 255) = 1 / 10000 := by
    rw [hb0]
    norm_num [pyClamp, min_def, max_def]
  have hp255 : pyClamp (((255 : Byte).toNat : ℚ) / 255) = 9999 / 10000 := by
    rw [hb255]
    norm_num [pyClamp, min_def, max_def]
  refine ⟨rfl, ?_, ?_, fun c => rfl⟩
  · simp only [opacityTransform, hp0]
    push_cast
    norm_num
  · simp only [opacityTransform, hp255]
    push_cast
    norm_num

lemma rotTransform_bounds (b : Byte) :
    ∃ r : ℝ, rotTransform b = .finite r ∧ -1 ≤ r ∧ r ≤ 127 / 128 := by
  have h0 : (0 : ℝ) ≤ (b.toNat : ℝ) := Nat.cast_nonneg _
  have hb : (b.toNat : ℝ) ≤ 255 := by
    have h := b.toNat_lt
    have : b.toNat ≤ 255 := by omega
    exact_mod_cast this
  exact ⟨_, rfl, by linarith, by linarith⟩

lemma colorTransform_bounds (b : Byte) :
    ∃ r : ℝ, colorTransform b = .finite r ∧
      -(1772196 / 1000000) ≤ r ∧ r ≤ 1772196 / 1000000 := by
  have h0 : (0 : ℝ) ≤ (b.toNat : ℝ) := Nat.cast_nonneg _
  have hb : (b.toNat : ℝ) ≤ 255 := by
    have h := b.toNat_lt
    have : b.toNat ≤ 255 := by omega
    exact_mod_cast this
  exact ⟨_, rfl, by linarith, by linarith⟩

lemma opacityTransform_bounds (o : Byte) :
    ∃ r : ℝ, opacityTransform o = .finite r ∧
      Real.log ((1 / 10000) / (9999 / 10000)) ≤ r ∧
      r ≤ Real.log ((9999 / 10000) / (1 / 10000)) := by
  have h1 : (1 : ℚ) / 10000 ≤ pyClamp ((o.toNat : ℚ) / 255) := le_pyClamp _
  have h2 : pyClamp ((o.toNat : ℚ) / 255) ≤ 9999 / 10000 := pyClamp_le _
  have hp1 : ((1 / 10000 : ℚ) : ℝ) ≤ ((pyClamp ((o.toNat : ℚ) / 255) : ℚ) : ℝ) :=
    Rat.cast_le.mpr h1
  have hp2 : ((pyClamp ((o.toNat : ℚ) / 255) : ℚ) : ℝ) ≤ ((9999 / 10000 : ℚ) : ℝ) :=
    Rat.cast_le.mpr h2
  have e1 : ((1 / 10000 : ℚ) : ℝ) = 1 / 10000 := by norm_num
  have e2 : ((9999 / 10000 : ℚ) : ℝ) = 9999 / 10000 := by norm_num
  rw [e1] at hp1
  rw [e2] at hp2
  have hden : (0 : ℝ) < 1 - ((pyClamp ((o.toNat : ℚ) / 255) : ℚ) : ℝ) := by
    linarith
  refine ⟨_, rfl, ?_, ?_⟩
  · refine Real.log_le_log (by norm_num) ?_
    rw [div_le_div_iff₀ (by norm_num) hden]
    linarith
  · refine Real.log_le_log (div_pos (by linarith) hden) ?_
    rw [div_le_div_iff₀ hden (by norm_num)]
    linarith

/-- C10: every record decoded from arbitrary input bytes satisfies the
range invariants: each `rot_i` lies in `[-1, 127/128]`, each `f_dc_i`
in `[-1.772196, +1.772196]`, and the opacity in
`[ln(0.0001/0.9999), ln(0.9999/0.0001)]`; and the encoder reads the 14
fields of each record unchanged (in pack order), so the same bounds
hold for every value handed to the PLY body writers. -/
theorem C10_decoded_range_invariants (c : List Byte) :
    (∃ r : ℝ, (decodeChunk c).rot_0 = .finite r ∧ -1 ≤ r ∧ r ≤ 127 / 128) ∧
    (∃ r : ℝ, (decodeChunk c).rot_1 = .finite r ∧ -1 ≤ r ∧ r ≤ 127 / 128) ∧
    (∃ r : ℝ, (decodeChunk c).rot_2 = .finite r ∧ -1 ≤ r ∧ r ≤ 127 / 128) ∧
    (∃ r : ℝ, (decodeChunk c).rot_3 = .finite r ∧ -1 ≤ r ∧ r ≤ 127 / 128) ∧
    (∃ r : ℝ, (decodeChunk c).f_dc_0 = .finite r ∧
      -(1772196 / 1000000) ≤ r ∧ r ≤ 1772196 / 1000000) ∧
    (∃ r : ℝ, (decodeChunk c).f_dc_1 = .finite r ∧
      -(1772196 / 1000000) ≤ r ∧ r ≤ 1772196 / 1000000) ∧
    (∃ r : ℝ, (decodeChunk c).f_dc_2 = .finite r ∧
      -(1772196 / 1000000) ≤ r ∧ r ≤ 1772196 / 1000000) ∧
    (∃ r : ℝ, (decodeChunk c).opacity = .finite r ∧
      Real.log ((1 / 10000) / (9999 / 10000)) ≤ r ∧
      r ≤ Real.log ((9999 / 10000) / (1 / 10000))) ∧
    (∀ s : Splat, packOrder s =
      [s.x, s.y, s.z, s.opacity, s.rot_0, s.rot_1, s.rot_2, s.rot_3,
       s.f_dc_0, s.f_dc_1, s.f_dc_2, s.scale_0, s.scale_1, s.scale_2]) ∧
    (∀ (packF32 : PyF → List Byte) (splats : List Splat),
      binaryBody packF32 splats =
        splats.flatMap (fun s => (packOrder s).flatMap packF32)) :=
  ⟨rotTransform_bounds (c.getD 28 0), rotTransform_bounds (c.getD 29 0),
   rotTransform_bounds (c.getD 30 0), rotTransform_bounds (c.getD 31 0),
   colorTransform_bounds (c.getD 24 0), colorTransform_bounds (c.getD 25 0),
   colorTransform_bounds (c.getD 26 0), opacityTransform_bounds (c.getD 27 0),
   fun s => rfl, fun packF32 splats => rfl⟩
